import Mathlib

/-
Shallow embedding of the two example chatbot clients of the
pgEdge Postgres MCP repository:

* `examples/http-ollama-chatbot/chatbot.py`  (namespace `Ollama`)
* `examples/stdio-anthropic-chatbot/chatbot.py` (namespace `Stdio`)

External collaborators (the Ollama / Anthropic LLM endpoints, the MCP
tool server, the Python functions `json.loads` / `json.dumps`, `os.getenv`,
`os.path.exists`) are modelled as oracle functions bundled in an
environment record; everything the scripts themselves do is translated
directly from the Python source.  Fallible external calls return
`Except`, and the uncaught Python `TypeError` that the test `"tool" in x` can
raise on non-container values is modelled explicitly.
-/

/-- Decoded JSON values, the result type of the Python function `json.loads`
(numbers collapsed to `Int`; irrelevant to the claims). -/
inductive Json where
  | null : Json
  | bool : Bool → Json
  | num : Int → Json
  | str : String → Json
  | arr : List Json → Json
  | obj : List (String × Json) → Json

/-- Drop leading whitespace characters. -/
def dropWhileWs : List Char → List Char
  | [] => []
  | c :: cs => if c.isWhitespace then dropWhileWs cs else c :: cs

/-- Python `str.strip()` (no argument, so whitespace), as used by the scripts:
remove leading and trailing whitespace. -/
def pyStrip (s : String) : String :=
  ⟨(dropWhileWs (dropWhileWs s.data).reverse).reverse⟩

/-- Python `str.lower()` restricted to its ASCII action, as used on the
session-loop commands. -/
def pyLower (s : String) : String :=
  ⟨s.data.map Char.toLower⟩

/-- Substring test, modelling the Python expression `needle in haystack` on strings. -/
def strContains (hay needle : String) : Bool :=
  hay.toList.tails.any (fun t => needle.toList.isPrefixOf t)

/-- Python truthiness of an `os.getenv` result: `None` and `""` are falsy. -/
def pyFalsyStrOpt : Option String → Bool
  | none => true
  | some s => s = ""

/-- Events of the interactive session read from standard input:
a line of text, or a `KeyboardInterrupt`. -/
inductive InputEvent where
  | line (s : String)
  | interrupt

namespace Ollama

/-- A chat message of the HTTP/Ollama variant: a `{"role": ..., "content": ...}`
dict whose content is always a string. -/
structure Message where
  role : String
  content : String

/-- Observable interactions of one user turn: an LLM round trip
(`ollama.chat` invoked on a full message list) or a tool invocation. -/
inductive OEvent where
  | llmCall (msgs : List Message)
  | toolCall (tool_name tool_args : Json)
  | goodbye
  | answerPrint (s : String)
  | errorPrint

/-- Oracles for the external collaborators of the HTTP/Ollama client:
`chat` is `ollama.chat(...)["message"]["content"]` (it may raise),
`rpc` is `_jsonrpc_request(method, params)` (it may raise),
`jsonLoads` is the Python function `json.loads` (`none` encodes `JSONDecodeError`),
`dumps` is `json.dumps(·, indent=2)`. -/
structure Env where
  chat : List Message → Except String String
  rpc : String → Json → Except String Json
  jsonLoads : String → Option Json
  dumps : Json → String

/-- Model of `PostgresChatbot.call_tool`: forwards to `_jsonrpc_request("tools/call", ...)`
and converts any exception into an error dict with `is_error: True`. -/
def call_tool (env : Env) (tool_name arguments : Json) : Json :=
  match env.rpc "tools/call" (.obj [("name", tool_name), ("arguments", arguments)]) with
  | .ok result => result
  | .error e => .obj [("error", .str e), ("is_error", .bool true)]

/-- One entry of a JSON schema `properties` dict
(`param_info` in `format_tools_for_ollama`). -/
structure ParamInfo where
  type : Option String
  description : Option String

/-- A named property of an input schema (one item of `schema["properties"]`,
which is an insertion-ordered dict). -/
structure ParamEntry where
  name : String
  info : ParamInfo

/-- The `inputSchema` dict of a tool; `properties` is absent when the key is missing. -/
structure InputSchema where
  properties : Option (List ParamEntry)

/-- A tool dict as returned by `tools/list`: `name` is accessed by subscript
(required), `description` and `inputSchema` may be absent. -/
structure ToolDict where
  name : String
  description : Option String
  inputSchema : Option InputSchema

/-- The `name (type): description` line built for one schema property. -/
def formatParam (p : ParamEntry) : String :=
  p.name ++ " (" ++ (p.info.type.getD "unknown") ++ "): " ++ (p.info.description.getD "")

/-- The description entry `format_tools_for_ollama` builds for one tool:
the `- name: description` line, extended by a `Parameters:` sub-block when
the schema is present, has a `properties` key, and the built list is non-empty. -/
def toolEntry (tool : ToolDict) : String :=
  let tool_desc := "- " ++ tool.name ++ ": " ++ (tool.description.getD "No description")
  match tool.inputSchema with
  | none => tool_desc
  | some schema =>
    match schema.properties with
    | none => tool_desc
    | some props =>
      let params := props.map formatParam
      if params.isEmpty then tool_desc
      else tool_desc ++ "\n  Parameters:\n    " ++ String.intercalate "\n    " params

/-- Model of `PostgresChatbot.format_tools_for_ollama`: one entry per tool, joined
with newlines ("\n".join over the accumulated `tool_descriptions`). -/
def format_tools_for_ollama (tools : List ToolDict) : String :=
  String.intercalate "\n" (tools.map toolEntry)

/-- Whether a tool dict has an input schema with a non-empty properties map. -/
def hasNonEmptyProps (tool : ToolDict) : Bool :=
  match tool.inputSchema with
  | none => false
  | some schema =>
    match schema.properties with
    | none => false
    | some props => !props.isEmpty

/-- The system message f-string of `process_query`, parameterised by the
rendered tools context. -/
def ollama_system_message (tools_context : String) : String :=
  "You are a helpful PostgreSQL database assistant. You have access to the following tools:\n\n"
  ++ tools_context
  ++ "\n\nIMPORTANT INSTRUCTIONS:\n1. When you need to use a tool, respond with ONLY a JSON object - no other text before or after:\n\x7b\n    \"tool\": \"tool_name\",\n    \"arguments\": \x7b\n        \"param1\": \"value1\",\n        \"param2\": \"value2\"\n    \x7d\n\x7d\n\n2. After calling a tool, you will receive actual results from the database.\n3. You MUST base your response ONLY on the actual tool results provided - never make up or guess data.\n4. If you receive tool results, format them clearly for the user.\n5. Only use tools when necessary to answer the user\x27s question."

/-- The Python test `"tool" in x` on a decoded JSON value: key test on dicts,
element test on lists, substring test on strings; `none` encodes the
`TypeError` raised on the remaining types (int, float, bool, None). -/
def pyInTool : Json → Option Bool
  | .obj kvs => some (kvs.any (fun kv => kv.1 == "tool"))
  | .arr xs => some (xs.any (fun x => match x with | .str s => s == "tool" | _ => false))
  | .str s => some (strContains s "tool")
  | _ => none

/-- Outcome of the reply-inspection step in the loop body of `process_query`
(the `try: tool_call = json.loads(...)` block). -/
inductive Decode where
  | finalText
  | typeErr
  | invoke (tool_name tool_args : Json)

/-- The reply-inspection logic of `process_query`: parse the stripped reply
with `json.loads` (a `JSONDecodeError` falls through to the final-answer
return), test `"tool" in tool_call` (which raises `TypeError` on
non-container values, uncaught), and on success read `tool_call["tool"]`
(a `TypeError` on a non-dict, uncaught) and `tool_call.get("arguments", {})`. -/
def decode_reply (jsonLoads : String → Option Json) (assistant_message : String) : Decode :=
  match jsonLoads (pyStrip assistant_message) with
  | none => .finalText
  | some tool_call =>
    match pyInTool tool_call with
    | none => .typeErr
    | some false => .finalText
    | some true =>
      match tool_call with
      | .obj kvs =>
        .invoke (((kvs.find? (fun kv => kv.1 == "tool")).map Prod.snd).getD .null)
                (((kvs.find? (fun kv => kv.1 == "arguments")).map Prod.snd).getD (.obj []))
      | _ => .typeErr

/-- Result of one iteration of the `for iteration in range(10)` loop of `process_query`; the
body: the `ollama.chat` call raised, an uncaught `TypeError` was raised,
a final answer was returned, or a tool round trip appended two messages
and the loop continues. -/
inductive OStep where
  | raised (e : String)
  | crash
  | final (answer : String)
  | next (messages : List Message)

/-- Returns `true` exactly on the continue-the-loop outcome. -/
def OStep.isNext : OStep → Bool
  | .next _ => true
  | _ => false

/-- One iteration of the `for iteration in range(10)` loop of
`PostgresChatbot.process_query`: prepend the system message, call the LLM,
inspect the reply; on a tool invocation execute it via `call_tool` and
append the assistant message and the `Tool result:` user message. -/
def ollama_step (env : Env) (system_message : String) (messages : List Message) :
    OStep × List OEvent :=
  let full_messages := { role := "system", content := system_message } :: messages
  match env.chat full_messages with
  | .error e => (.raised e, [.llmCall full_messages])
  | .ok assistant_message =>
    match decode_reply env.jsonLoads assistant_message with
    | .finalText => (.final assistant_message, [.llmCall full_messages])
    | .typeErr => (.crash, [.llmCall full_messages])
    | .invoke tool_name tool_args =>
      let tool_result := call_tool env tool_name tool_args
      let messages' := messages ++
        [{ role := "assistant", content := assistant_message },
         { role := "user", content := "Tool result:\n" ++ env.dumps tool_result }]
      (.next messages', [.llmCall full_messages, .toolCall tool_name tool_args])

/-- The fixed apology string returned when the 10-iteration loop is exhausted. -/
def apology : String :=
  "I apologize, but I\x27ve reached the maximum number of tool calls. Please try rephrasing your question."

/-- Overall outcome of `process_query`: a returned answer, a propagated
exception from `ollama.chat`, or a propagated `TypeError`; each carries the
message list as mutated so far (Python mutates the list of the caller in place). -/
inductive OOutcome where
  | answer (s : String) (messages : List Message)
  | raised (e : String) (messages : List Message)
  | typeError (messages : List Message)

/-- The `for iteration in range(10)` loop of `process_query`, by remaining
iteration count; when the count is exhausted the apology string is returned. -/
def ollama_loop (env : Env) (system_message : String) :
    Nat → List Message → OOutcome × List OEvent
  | 0, messages => (.answer apology messages, [])
  | n + 1, messages =>
    match ollama_step env system_message messages with
    | (.raised e, ev) => (.raised e messages, ev)
    | (.crash, ev) => (.typeError messages, ev)
    | (.final a, ev) => (.answer a messages, ev)
    | (.next m, ev) =>
      let r := ollama_loop env system_message n m
      (r.1, ev ++ r.2)

/-- Model of `PostgresChatbot.process_query`: render the tools, build the system
message, append the user query, and run the loop with 10 iterations. -/
def process_query (env : Env) (tools : List ToolDict) (user_query : String)
    (messages : List Message) : OOutcome × List OEvent :=
  let system_message := ollama_system_message (format_tools_for_ollama tools)
  ollama_loop env system_message 10 (messages ++ [{ role := "user", content := user_query }])

/-- The message history at the start of iteration `i` of the loop
(fixed at the last value once the loop stops continuing). -/
def ollama_histories (env : Env) (system_message : String) (init : List Message) :
    Nat → List Message
  | 0 => init
  | i + 1 =>
    match ollama_step env system_message (ollama_histories env system_message init i) with
    | (.next m, _) => m
    | _ => ollama_histories env system_message init i

/-- Number of LLM round trips recorded in an event trace. -/
def countLlmCalls (evs : List OEvent) : Nat :=
  evs.countP (fun e => match e with | .llmCall _ => true | _ => false)

/-- The `while True` body of `PostgresChatbot.chat_loop`, driven by a finite
list of input events (an exhausted list cuts the model off while the real
session would keep waiting): strip the line, recognise `quit`/`exit`/`q`
case-insensitively, skip empty input, otherwise process the query, print the
answer and append it to the history; exceptions from the turn are printed
and the loop continues with the history as mutated so far. -/
def chat_loop (env : Env) (tools : List ToolDict) :
    List InputEvent → List Message → List OEvent
  | [], _ => []
  | .interrupt :: _, _ => [.goodbye]
  | .line s :: rest, messages =>
    let user_input := pyStrip s
    if ["quit", "exit", "q"].contains (pyLower user_input) then
      [.goodbye]
    else if user_input = "" then
      chat_loop env tools rest messages
    else
      match process_query env tools user_input messages with
      | (.answer a m, ev) =>
        ev ++ .answerPrint a ::
          chat_loop env tools rest (m ++ [{ role := "assistant", content := a }])
      | (.raised _ m, ev) => ev ++ .errorPrint :: chat_loop env tools rest m
      | (.typeError m, ev) => ev ++ .errorPrint :: chat_loop env tools rest m

/-- Model of `PostgresChatbot._get_next_id`: increment `self.request_id` and return it;
the pair is (new state, returned id). -/
def get_next_id (request_id : Nat) : Nat × Nat :=
  (request_id + 1, request_id + 1)

/-- The `request_id` counter after `n` calls to `_get_next_id`
(the constructor initialises it to 0). -/
def request_id_after : Nat → Nat
  | 0 => 0
  | n + 1 => (get_next_id (request_id_after n)).1

/-- The id carried by the `n`-th JSON-RPC request of a session (0-indexed). -/
def nth_request_id (n : Nat) : Nat :=
  (get_next_id (request_id_after n)).2

/-- Observable actions of `main`. -/
inductive MainAction where
  | printOut (s : String)
  | network
  | enterChatLoop

/-- Model of `main` of the HTTP/Ollama variant: a missing (or empty, hence falsy)
`PGEDGE_MCP_SERVER_URL` prints a descriptive error and returns before the
chatbot is constructed; otherwise the configuration is printed and the chat
loop is entered. -/
def ollama_main (getenv : String → Option String) : List MainAction :=
  let mcp_server_url := getenv "PGEDGE_MCP_SERVER_URL"
  if pyFalsyStrOpt mcp_server_url then
    [.printOut "Error: PGEDGE_MCP_SERVER_URL environment variable is required",
     .printOut "\nPlease start the MCP server in HTTP mode and set the URL:",
     .printOut "  1. Start server: ./bin/pgedge-postgres-mcp -http -addr :8080",
     .printOut "  2. Set URL: export PGEDGE_MCP_SERVER_URL=\x27http://localhost:8080/mcp/v1\x27"]
  else
    [.printOut ("Using Ollama model: " ++ ((getenv "OLLAMA_MODEL").getD "gpt-oss:20b")),
     .printOut ("MCP Server: " ++ (mcp_server_url.getD "")),
     .printOut "✓ Connected to pgEdge Natural Language Agent",
     .enterChatLoop]

end Ollama

namespace Stdio

/-- A content block of an Anthropic response.  Blocks are duck-typed in the
source: the loop dispatches on `type == "tool_use"` (such blocks carry
`id`, `name`, `input`) and the terminal branch on `hasattr(block, "text")`
(`text = some t` models a block carrying a text attribute). -/
structure Block where
  type : String
  id : String
  name : String
  input : Json
  text : Option String

/-- An Anthropic `messages.create` response: stop reason plus content blocks. -/
structure ClaudeResponse where
  stop_reason : String
  content : List Block

/-- One entry of the `tool_results` list: the success dict
`{"type": "tool_result", "tool_use_id": ..., "content": result.content}`
or the failure dict additionally carrying `"is_error": True`. -/
inductive ToolResultEntry where
  | success (tool_use_id : String) (content : Json)
  | failure (tool_use_id : String) (errText : String)

/-- The `tool_use_id` field of a tool-result entry. -/
def ToolResultEntry.tool_use_id : ToolResultEntry → String
  | .success i _ => i
  | .failure i _ => i

/-- Value of `d.get("is_error", False)` on a tool-result entry: the flag is present
(and `True`) exactly on the failure dict. -/
def ToolResultEntry.is_error : ToolResultEntry → Bool
  | .success _ _ => false
  | .failure _ _ => true

/-- Content of a message sent to the Anthropic API: the user query string,
a forwarded `response.content` block list, or a `tool_results` list. -/
inductive AContent where
  | text (s : String)
  | blocks (bs : List Block)
  | toolResults (rs : List ToolResultEntry)

/-- A message of the history of the stdio variant. -/
structure AMessage where
  role : String
  content : AContent

/-- A tool as returned by the `list_tools` call of the MCP server. -/
structure McpTool where
  name : String
  description : String
  inputSchema : Json

/-- A tool converted to the Anthropic tool format in `process_query`. -/
structure AnthropicTool where
  name : String
  description : String
  input_schema : Json

/-- The MCP-to-Anthropic tool conversion performed by `process_query`. -/
def toAnthropicTool (t : McpTool) : AnthropicTool :=
  { name := t.name, description := t.description, input_schema := t.inputSchema }

/-- Observable interactions of the stdio variant: a `messages.create`
round trip on a message list, or an MCP tool invocation. -/
inductive CEvent where
  | createCall (msgs : List AMessage)
  | toolCall (name : String) (args : Json)
  | goodbye
  | answerPrint (s : String)
  | errorPrint

/-- Oracles for the collaborators of the stdio variant:
`create` is `anthropic.messages.create(...)` (it may raise),
`mcpCall` is `session.call_tool(name, args)` (it may raise),
`listTools` is `session.list_tools().tools`. -/
structure Env where
  create : List AMessage → List AnthropicTool → Except String ClaudeResponse
  mcpCall : String → Json → Except String Json
  listTools : Except String (List McpTool)

/-- The per-block `try/except` of `process_query`: call the tool via MCP and
build the success entry, or convert the exception into an entry carrying
`Error: <text>` and `is_error: True`. -/
def exec_tool_block (env : Env) (b : Block) : ToolResultEntry :=
  match env.mcpCall b.name b.input with
  | .ok content => .success b.id content
  | .error e => .failure b.id ("Error: " ++ e)

/-- The terminal branch of `process_query`: concatenate the `text` of every
content block carrying a text attribute (`final_response += block.text`). -/
def concat_text_blocks (bs : List Block) : String :=
  bs.foldl (fun acc b => match b.text with | some t => acc ++ t | none => acc) ""

/-- Result of one iteration of the `while True` body of `process_query`. -/
inductive CStep where
  | raised (e : String)
  | done (answer : String)
  | next (messages : List AMessage)

/-- One iteration of the `while True` loop of the stdio
`PostgresChatbot.process_query`: call `messages.create`; on stop reason
`"tool_use"` append the assistant message, execute every `tool_use` content
block in order collecting one tool-result entry each, and append them as a
single user message; on any other stop reason return the concatenated text. -/
def claude_step (env : Env) (available_tools : List AnthropicTool)
    (messages : List AMessage) : CStep × List CEvent :=
  match env.create messages available_tools with
  | .error e => (.raised e, [.createCall messages])
  | .ok response =>
    if response.stop_reason = "tool_use" then
      let messages1 := messages ++ [{ role := "assistant", content := .blocks response.content }]
      let tub := response.content.filter (fun b => b.type == "tool_use")
      let tool_results := tub.map (exec_tool_block env)
      let messages2 := messages1 ++ [{ role := "user", content := .toolResults tool_results }]
      (.next messages2, .createCall messages :: tub.map (fun b => .toolCall b.name b.input))
    else
      (.done (concat_text_blocks response.content), [.createCall messages])

/-- Overall outcome of the stdio `process_query`; `fuelOut` is the
cut-off for a loop that has not yet terminated (the source loop is unbounded). -/
inductive COutcome where
  | answer (s : String) (messages : List AMessage)
  | raised (e : String) (messages : List AMessage)
  | fuelOut (messages : List AMessage)

/-- The unbounded `while True` loop of the stdio `process_query`, indexed by
the number of iterations the model is allowed to unfold. -/
def claude_loop (env : Env) (available_tools : List AnthropicTool) :
    Nat → List AMessage → COutcome × List CEvent
  | 0, messages => (.fuelOut messages, [])
  | n + 1, messages =>
    match claude_step env available_tools messages with
    | (.raised e, ev) => (.raised e messages, ev)
    | (.done a, ev) => (.answer a messages, ev)
    | (.next m, ev) =>
      let r := claude_loop env available_tools n m
      (r.1, ev ++ r.2)

/-- The stdio `PostgresChatbot.process_query`: append the user query, fetch
the tool list (an exception propagates), convert it to the Anthropic tool
format, and run the loop. -/
def process_query (env : Env) (fuel : Nat) (user_query : String)
    (messages : List AMessage) : COutcome × List CEvent :=
  let messages := messages ++ [{ role := "user", content := .text user_query }]
  match env.listTools with
  | .error e => (.raised e messages, [])
  | .ok tools =>
    let available_tools := tools.map toAnthropicTool
    claude_loop env available_tools fuel messages

/-- The `while True` body of the stdio `PostgresChatbot.chat_loop`, driven by
a finite list of input events (same conventions as the Ollama model). -/
def chat_loop (env : Env) (fuel : Nat) :
    List InputEvent → List AMessage → List CEvent
  | [], _ => []
  | .interrupt :: _, _ => [.goodbye]
  | .line s :: rest, messages =>
    let user_input := pyStrip s
    if ["quit", "exit", "q"].contains (pyLower user_input) then
      [.goodbye]
    else if user_input = "" then
      chat_loop env fuel rest messages
    else
      match process_query env fuel user_input messages with
      | (.answer a m, ev) =>
        ev ++ .answerPrint a ::
          chat_loop env fuel rest (m ++ [{ role := "assistant", content := .text a }])
      | (.raised _ m, ev) => ev ++ .errorPrint :: chat_loop env fuel rest m
      | (.fuelOut _, ev) => ev

/-- Model of `main` of the stdio variant: a missing server binary prints a descriptive
error and returns; otherwise a missing (or empty, hence falsy)
`ANTHROPIC_API_KEY` prints a descriptive error and returns; otherwise the
server is connected to (network) and the chat loop entered. -/
def stdio_main (getenv : String → Option String) (path_exists : String → Bool) :
    List Ollama.MainAction :=
  let server_path := (getenv "PGEDGE_MCP_SERVER_PATH").getD "../../bin/pgedge-postgres-mcp"
  if !path_exists server_path then
    [.printOut ("Error: Server not found at " ++ server_path),
     .printOut "\nPlease either:",
     .printOut "  1. Build the server: cd ../.. && go build -o bin/pgedge-postgres-mcp ./cmd/pgedge-pg-mcp-svr",
     .printOut "  2. Set PGEDGE_MCP_SERVER_PATH environment variable to the correct path"]
  else if pyFalsyStrOpt (getenv "ANTHROPIC_API_KEY") then
    [.printOut "Error: ANTHROPIC_API_KEY environment variable is required",
     .printOut "\nGet your API key from: https://console.anthropic.com/",
     .printOut "Then set it: export ANTHROPIC_API_KEY=\x27your-key-here\x27"]
  else
    [.network,
     .printOut "✓ Connected to pgEdge Natural Language Agent",
     .enterChatLoop]

end Stdio

/-! Helper lemmas -/

theorem Ollama.request_id_after_eq (n : Nat) : Ollama.request_id_after n = n := by
  induction n with
  | zero => rfl
  | succ n ih => simp [Ollama.request_id_after, Ollama.get_next_id, ih]

theorem Ollama.nth_request_id_eq (n : Nat) : Ollama.nth_request_id n = n + 1 := by
  simp [Ollama.nth_request_id, Ollama.get_next_id, Ollama.request_id_after_eq]

theorem Ollama.toolEntry_base (t : Ollama.ToolDict) :
    ∃ rest, Ollama.toolEntry t =
      ("- " ++ t.name ++ ": " ++ (t.description.getD "No description")) ++ rest := by
  obtain ⟨name, desc, ischema⟩ := t
  cases ischema with
  | none => exact ⟨"", by simp [Ollama.toolEntry]⟩
  | some schema =>
    obtain ⟨props?⟩ := schema
    cases props? with
    | none => exact ⟨"", by simp [Ollama.toolEntry]⟩
    | some props =>
      by_cases h : (props.map Ollama.formatParam).isEmpty
      · exact ⟨"", by simp [Ollama.toolEntry, h]⟩
      · refine ⟨"\n  Parameters:\n    " ++
          String.intercalate "\n    " (props.map Ollama.formatParam), ?_⟩
        rw [Bool.not_eq_true] at h
        simp [Ollama.toolEntry, h, String.append_assoc]

theorem Ollama.toolEntry_no_params (t : Ollama.ToolDict)
    (h : Ollama.hasNonEmptyProps t = false) :
    Ollama.toolEntry t = "- " ++ t.name ++ ": " ++ (t.description.getD "No description") := by
  obtain ⟨name, desc, ischema⟩ := t
  cases ischema with
  | none => simp [Ollama.toolEntry]
  | some schema =>
    obtain ⟨props?⟩ := schema
    cases props? with
    | none => simp [Ollama.toolEntry]
    | some props =>
      simp only [Ollama.hasNonEmptyProps, Bool.not_eq_false'] at h
      have : (props.map Ollama.formatParam).isEmpty = true := by
        simp [List.isEmpty_iff] at h ⊢
        simp [h]
      simp [Ollama.toolEntry, this]

theorem Ollama.toolEntry_with_params (t : Ollama.ToolDict)
    (h : Ollama.hasNonEmptyProps t = true) :
    ∃ rest, Ollama.toolEntry t =
      ("- " ++ t.name ++ ": " ++ (t.description.getD "No description"))
        ++ "\n  Parameters:\n    " ++ rest := by
  obtain ⟨name, desc, ischema⟩ := t
  cases ischema with
  | none => exact absurd h (by simp [Ollama.hasNonEmptyProps])
  | some schema =>
    obtain ⟨props?⟩ := schema
    cases props? with
    | none => exact absurd h (by simp [Ollama.hasNonEmptyProps])
    | some props =>
      simp only [Ollama.hasNonEmptyProps, Bool.not_eq_true'] at h
      have hne : (props.map Ollama.formatParam).isEmpty = false := by
        simp [List.isEmpty_iff] at h ⊢
        simp [h]
      refine ⟨String.intercalate "\n    " (props.map Ollama.formatParam), ?_⟩
      simp [Ollama.toolEntry, hne]

theorem Ollama.decode_reply_none (jsonLoads : String → Option Json) (a : String)
    (h : jsonLoads (pyStrip a) = none) :
    Ollama.decode_reply jsonLoads a = .finalText := by
  unfold Ollama.decode_reply
  rw [h]

theorem Ollama.decode_reply_obj_no_tool (jsonLoads : String → Option Json) (a : String)
    (kvs : List (String × Json)) (h : jsonLoads (pyStrip a) = some (.obj kvs))
    (hn : kvs.any (fun kv => kv.1 == "tool") = false) :
    Ollama.decode_reply jsonLoads a = .finalText := by
  unfold Ollama.decode_reply
  rw [h]
  simp [Ollama.pyInTool, hn]

theorem Ollama.decode_reply_obj_tool (jsonLoads : String → Option Json) (a : String)
    (kvs : List (String × Json)) (h : jsonLoads (pyStrip a) = some (.obj kvs))
    (hn : kvs.any (fun kv => kv.1 == "tool") = true) :
    Ollama.decode_reply jsonLoads a =
      .invoke (((kvs.find? (fun kv => kv.1 == "tool")).map Prod.snd).getD .null)
              (((kvs.find? (fun kv => kv.1 == "arguments")).map Prod.snd).getD (.obj [])) := by
  unfold Ollama.decode_reply
  rw [h]
  simp [Ollama.pyInTool, hn]

theorem Ollama.decode_reply_num (jsonLoads : String → Option Json) (a : String)
    (k : Int) (h : jsonLoads (pyStrip a) = some (.num k)) :
    Ollama.decode_reply jsonLoads a = .typeErr := by
  unfold Ollama.decode_reply
  rw [h]
  rfl

theorem Ollama.decode_reply_invoke_inv (jsonLoads : String → Option Json) (a : String)
    (nm args : Json) (h : Ollama.decode_reply jsonLoads a = .invoke nm args) :
    ∃ kvs, jsonLoads (pyStrip a) = some (.obj kvs)
      ∧ kvs.any (fun kv => kv.1 == "tool") = true := by
  unfold Ollama.decode_reply at h
  cases hl : jsonLoads (pyStrip a) with
  | none => rw [hl] at h; simp at h
  | some tc =>
    rw [hl] at h
    cases tc with
    | obj kvs =>
      refine ⟨kvs, rfl, ?_⟩
      cases hb : kvs.any (fun kv => kv.1 == "tool") with
      | true => rfl
      | false => simp [Ollama.pyInTool, hb] at h
    | null => simp [Ollama.pyInTool] at h
    | bool b => simp [Ollama.pyInTool] at h
    | num k => simp [Ollama.pyInTool] at h
    | arr xs =>
      cases hb : xs.any (fun x => match x with | .str s => s == "tool" | _ => false) <;>
        simp [Ollama.pyInTool, hb] at h
    | str s =>
      cases hb : strContains s "tool" <;> simp [Ollama.pyInTool, hb] at h

theorem Ollama.ollama_step_chat_error (env : Ollama.Env) (sys : String)
    (messages : List Ollama.Message) (e : String)
    (hc : env.chat ({ role := "system", content := sys } :: messages) = .error e) :
    Ollama.ollama_step env sys messages =
      (.raised e, [.llmCall ({ role := "system", content := sys } :: messages)]) := by
  simp only [Ollama.ollama_step]
  rw [hc]

theorem Ollama.ollama_step_final (env : Ollama.Env) (sys : String)
    (messages : List Ollama.Message) (a : String)
    (hc : env.chat ({ role := "system", content := sys } :: messages) = .ok a)
    (hd : Ollama.decode_reply env.jsonLoads a = .finalText) :
    Ollama.ollama_step env sys messages =
      (.final a, [.llmCall ({ role := "system", content := sys } :: messages)]) := by
  simp [Ollama.ollama_step, hc, hd]

theorem Ollama.ollama_step_crash (env : Ollama.Env) (sys : String)
    (messages : List Ollama.Message) (a : String)
    (hc : env.chat ({ role := "system", content := sys } :: messages) = .ok a)
    (hd : Ollama.decode_reply env.jsonLoads a = .typeErr) :
    Ollama.ollama_step env sys messages =
      (.crash, [.llmCall ({ role := "system", content := sys } :: messages)]) := by
  simp [Ollama.ollama_step, hc, hd]

theorem Ollama.ollama_step_invoke (env : Ollama.Env) (sys : String)
    (messages : List Ollama.Message) (a : String) (nm args : Json)
    (hc : env.chat ({ role := "system", content := sys } :: messages) = .ok a)
    (hd : Ollama.decode_reply env.jsonLoads a = .invoke nm args) :
    Ollama.ollama_step env sys messages =
      (.next (messages ++
          [{ role := "assistant", content := a },
           { role := "user",
             content := "Tool result:\n" ++ env.dumps (Ollama.call_tool env nm args) }]),
       [.llmCall ({ role := "system", content := sys } :: messages), .toolCall nm args]) := by
  simp [Ollama.ollama_step, hc, hd]

/-- Case analysis on one loop iteration: every outcome of `ollama_step` arises
from one of the four lemmas above. -/
theorem Ollama.ollama_step_cases (env : Ollama.Env) (sys : String)
    (messages : List Ollama.Message) :
    (∃ e, env.chat ({ role := "system", content := sys } :: messages) = .error e
       ∧ Ollama.ollama_step env sys messages =
           (.raised e, [.llmCall ({ role := "system", content := sys } :: messages)]))
    ∨ (∃ a, env.chat ({ role := "system", content := sys } :: messages) = .ok a
       ∧ ((Ollama.decode_reply env.jsonLoads a = .finalText
            ∧ Ollama.ollama_step env sys messages =
                (.final a, [.llmCall ({ role := "system", content := sys } :: messages)]))
          ∨ (Ollama.decode_reply env.jsonLoads a = .typeErr
            ∧ Ollama.ollama_step env sys messages =
                (.crash, [.llmCall ({ role := "system", content := sys } :: messages)]))
          ∨ (∃ nm args, Ollama.decode_reply env.jsonLoads a = .invoke nm args
            ∧ Ollama.ollama_step env sys messages =
                (.next (messages ++
                    [{ role := "assistant", content := a },
                     { role := "user",
                       content := "Tool result:\n" ++ env.dumps (Ollama.call_tool env nm args) }]),
                 [.llmCall ({ role := "system", content := sys } :: messages),
                  .toolCall nm args])))) := by
  cases hc : env.chat ({ role := "system", content := sys } :: messages) with
  | error e => exact .inl ⟨e, rfl, Ollama.ollama_step_chat_error env sys messages e hc⟩
  | ok a =>
    refine .inr ⟨a, rfl, ?_⟩
    cases hd : Ollama.decode_reply env.jsonLoads a with
    | finalText => exact .inl ⟨rfl, Ollama.ollama_step_final env sys messages a hc hd⟩
    | typeErr => exact .inr (.inl ⟨rfl, Ollama.ollama_step_crash env sys messages a hc hd⟩)
    | invoke nm args =>
      exact .inr (.inr ⟨nm, args, rfl, Ollama.ollama_step_invoke env sys messages a nm args hc hd⟩)

/-- If an iteration continues the loop, it appended exactly the assistant
tool-call message and its tool-result message, and performed exactly one LLM
call and one tool call. -/
theorem Ollama.ollama_step_next_inv (env : Ollama.Env) (sys : String)
    (messages m : List Ollama.Message) (ev : List Ollama.OEvent)
    (h : Ollama.ollama_step env sys messages = (.next m, ev)) :
    ∃ a nm args,
      env.chat ({ role := "system", content := sys } :: messages) = .ok a
      ∧ Ollama.decode_reply env.jsonLoads a = .invoke nm args
      ∧ m = messages ++
          [{ role := "assistant", content := a },
           { role := "user",
             content := "Tool result:\n" ++ env.dumps (Ollama.call_tool env nm args) }]
      ∧ ev = [.llmCall ({ role := "system", content := sys } :: messages),
              .toolCall nm args] := by
  rcases Ollama.ollama_step_cases env sys messages with
    ⟨e, _, hs⟩ | ⟨a, hc, ⟨_, hs⟩ | ⟨_, hs⟩ | ⟨nm, args, hd, hs⟩⟩
  · rw [h] at hs; simp at hs
  · rw [h] at hs; simp at hs
  · rw [h] at hs; simp at hs
  · rw [h] at hs
    rw [Prod.mk.injEq] at hs
    obtain ⟨h1, h2⟩ := hs
    simp only [Ollama.OStep.next.injEq] at h1
    exact ⟨a, nm, args, hc, hd, h1, h2⟩

/-- Non-continuing iterations perform the LLM call and nothing else. -/
theorem Ollama.ollama_step_not_next (env : Ollama.Env) (sys : String)
    (messages : List Ollama.Message)
    (h : ((Ollama.ollama_step env sys messages).1).isNext = false) :
    (Ollama.ollama_step env sys messages).2 =
      [.llmCall ({ role := "system", content := sys } :: messages)] := by
  rcases Ollama.ollama_step_cases env sys messages with
    ⟨e, _, hs⟩ | ⟨a, hc, ⟨_, hs⟩ | ⟨_, hs⟩ | ⟨nm, args, hd, hs⟩⟩
  · rw [hs]
  · rw [hs]
  · rw [hs]
  · rw [hs] at h; simp [Ollama.OStep.isNext] at h

/-- Concatenation of a list of strings, in order (specification-side). -/
def concatAll : List String → String
  | [] => ""
  | s :: l => s ++ concatAll l

theorem Stdio.exec_tool_block_id (env : Stdio.Env) (b : Stdio.Block) :
    (Stdio.exec_tool_block env b).tool_use_id = b.id := by
  unfold Stdio.exec_tool_block
  cases env.mcpCall b.name b.input <;> rfl

theorem Stdio.claude_step_tool_use (env : Stdio.Env) (tools : List Stdio.AnthropicTool)
    (messages : List Stdio.AMessage) (resp : Stdio.ClaudeResponse)
    (hc : env.create messages tools = .ok resp)
    (hs : resp.stop_reason = "tool_use") :
    Stdio.claude_step env tools messages =
      (.next ((messages ++ [{ role := "assistant", content := .blocks resp.content }]) ++
          [{ role := "user", content := .toolResults
              ((resp.content.filter (fun b => b.type == "tool_use")).map
                (Stdio.exec_tool_block env)) }]),
       .createCall messages ::
         (resp.content.filter (fun b => b.type == "tool_use")).map
           (fun b => .toolCall b.name b.input)) := by
  simp [Stdio.claude_step, hc, hs]

theorem Stdio.claude_step_terminal (env : Stdio.Env) (tools : List Stdio.AnthropicTool)
    (messages : List Stdio.AMessage) (resp : Stdio.ClaudeResponse)
    (hc : env.create messages tools = .ok resp)
    (hs : resp.stop_reason ≠ "tool_use") :
    Stdio.claude_step env tools messages =
      (.done (Stdio.concat_text_blocks resp.content), [.createCall messages]) := by
  simp [Stdio.claude_step, hc, hs]

theorem Stdio.claude_step_raised_inv (env : Stdio.Env) (tools : List Stdio.AnthropicTool)
    (messages : List Stdio.AMessage) (e : String)
    (h : (Stdio.claude_step env tools messages).1 = .raised e) :
    env.create messages tools = .error e := by
  unfold Stdio.claude_step at h
  cases hc : env.create messages tools with
  | error e2 =>
    rw [hc] at h
    simp only [Stdio.CStep.raised.injEq] at h
    exact congrArg Except.error h
  | ok resp =>
    rw [hc] at h
    by_cases hs : resp.stop_reason = "tool_use" <;> simp [hs] at h

theorem Stdio.concat_text_blocks_foldl (bs : List Stdio.Block) (acc : String) :
    bs.foldl (fun acc b => match b.text with | some t => acc ++ t | none => acc) acc
      = acc ++ concatAll (bs.filterMap Stdio.Block.text) := by
  induction bs generalizing acc with
  | nil => simp [concatAll]
  | cons b bs ih =>
    cases hb : b.text with
    | none => simp [List.foldl_cons, hb, List.filterMap_cons, ih]
    | some t =>
      simp [List.foldl_cons, hb, List.filterMap_cons, ih, concatAll, String.append_assoc]

theorem Stdio.concat_text_blocks_eq (bs : List Stdio.Block) :
    Stdio.concat_text_blocks bs = concatAll (bs.filterMap Stdio.Block.text) := by
  unfold Stdio.concat_text_blocks
  rw [Stdio.concat_text_blocks_foldl]
  simp

theorem Ollama.ollama_step_raised_inv (env : Ollama.Env) (sys : String)
    (messages : List Ollama.Message) (e : String)
    (h : (Ollama.ollama_step env sys messages).1 = .raised e) :
    env.chat ({ role := "system", content := sys } :: messages) = .error e := by
  rcases Ollama.ollama_step_cases env sys messages with
    ⟨e2, hc, hs⟩ | ⟨a, hc, ⟨_, hs⟩ | ⟨_, hs⟩ | ⟨nm, args, hd, hs⟩⟩
  · rw [hs] at h
    simp only [Ollama.OStep.raised.injEq] at h
    rw [← h]
    exact hc
  · rw [hs] at h; simp at h
  · rw [hs] at h; simp at h
  · rw [hs] at h; simp at h

theorem Ollama.ollama_step_crash_inv (env : Ollama.Env) (sys : String)
    (messages : List Ollama.Message)
    (h : (Ollama.ollama_step env sys messages).1 = .crash) :
    ∃ a, env.chat ({ role := "system", content := sys } :: messages) = .ok a
      ∧ Ollama.decode_reply env.jsonLoads a = .typeErr := by
  rcases Ollama.ollama_step_cases env sys messages with
    ⟨e2, hc, hs⟩ | ⟨a, hc, ⟨_, hs⟩ | ⟨hd, hs⟩ | ⟨nm, args, hd, hs⟩⟩
  · rw [hs] at h; simp at h
  · rw [hs] at h; simp at h
  · exact ⟨a, hc, hd⟩
  · rw [hs] at h; simp at h

/-! Claim theorems -/

/-- C1: In both variants every tool invocation is paired with exactly one
tool result before the next LLM call.  Stdio variant: on a `"tool_use"` stop
reason, the step appends the assistant message followed by a single user
message holding one tool-result entry per `tool_use` content block (in order,
each entry carrying the id of its block), and the loop hands exactly that history
to the next `messages.create` call; a terminal stop reason triggers no tool
call.  Ollama variant: a continuing round trip performs exactly one LLM call
and one tool call and appends the assistant tool-call message and its
tool-result message before the next LLM call; a non-continuing round trip
performs no tool call. -/
theorem claim_C1 :
    (∀ (env : Stdio.Env) (tools : List Stdio.AnthropicTool) (messages : List Stdio.AMessage)
        (resp : Stdio.ClaudeResponse), env.create messages tools = .ok resp →
      (resp.stop_reason = "tool_use" →
        Stdio.claude_step env tools messages =
          (.next ((messages ++ [{ role := "assistant", content := .blocks resp.content }]) ++
              [{ role := "user", content := .toolResults
                  ((resp.content.filter (fun b => b.type == "tool_use")).map
                    (Stdio.exec_tool_block env)) }]),
           .createCall messages ::
             (resp.content.filter (fun b => b.type == "tool_use")).map
               (fun b => .toolCall b.name b.input)))
      ∧ (∀ b, (Stdio.exec_tool_block env b).tool_use_id = b.id)
      ∧ (resp.stop_reason ≠ "tool_use" →
          Stdio.claude_step env tools messages =
            (.done (Stdio.concat_text_blocks resp.content), [.createCall messages])))
    ∧ (∀ (env : Stdio.Env) (tools : List Stdio.AnthropicTool) (n : Nat)
        (messages m : List Stdio.AMessage) (ev : List Stdio.CEvent),
        Stdio.claude_step env tools messages = (.next m, ev) →
        Stdio.claude_loop env tools (n + 1) messages =
          ((Stdio.claude_loop env tools n m).1, ev ++ (Stdio.claude_loop env tools n m).2))
    ∧ (∀ (env : Ollama.Env) (sys : String) (messages m : List Ollama.Message)
        (ev : List Ollama.OEvent), Ollama.ollama_step env sys messages = (.next m, ev) →
        ∃ a nm args,
          ev = [.llmCall ({ role := "system", content := sys } :: messages), .toolCall nm args]
          ∧ m = messages ++
              [{ role := "assistant", content := a },
               { role := "user",
                 content := "Tool result:\n" ++ env.dumps (Ollama.call_tool env nm args) }])
    ∧ (∀ (env : Ollama.Env) (sys : String) (messages : List Ollama.Message),
        ((Ollama.ollama_step env sys messages).1).isNext = false →
        (Ollama.ollama_step env sys messages).2 =
          [.llmCall ({ role := "system", content := sys } :: messages)]) := by
  refine ⟨?_, ?_, ?_, Ollama.ollama_step_not_next⟩
  · intro env tools messages resp hc
    exact ⟨fun hs => Stdio.claude_step_tool_use env tools messages resp hc hs,
      fun b => Stdio.exec_tool_block_id env b,
      fun hs => Stdio.claude_step_terminal env tools messages resp hc hs⟩
  · intro env tools n messages m ev h
    simp [Stdio.claude_loop, h]
  · intro env sys messages m ev h
    obtain ⟨a, nm, args, _, _, hm, hev⟩ :=
      Ollama.ollama_step_next_inv env sys messages m ev h
    exact ⟨a, nm, args, hev, hm⟩

/-- One `tool_use` content block used by the C1 witness. -/
def C1block : Stdio.Block :=
  { type := "tool_use", id := "toolu_1", name := "list_tables", input := .obj [], text := none }

/-- Concrete stdio oracles for the C1 witness: the API always requests one
tool call. -/
def C1env : Stdio.Env :=
  { create := fun _ _ => .ok { stop_reason := "tool_use", content := [C1block] }
    mcpCall := fun _ _ => .ok .null
    listTools := .ok [] }

/-- Witness for C1 at a concrete `tool_use` response with one block. -/
theorem claim_C1_witness :
    Stdio.claude_step C1env [] [] =
      (.next (([] ++ [{ role := "assistant", content := .blocks [C1block] }]) ++
          [{ role := "user", content := .toolResults
              (([C1block].filter (fun b => b.type == "tool_use")).map
                (Stdio.exec_tool_block C1env)) }]),
       .createCall [] ::
         ([C1block].filter (fun b => b.type == "tool_use")).map
           (fun b => .toolCall b.name b.input))
    ∧ (Stdio.exec_tool_block C1env C1block).tool_use_id = C1block.id :=
  ⟨((claim_C1.1 C1env [] [] { stop_reason := "tool_use", content := [C1block] } rfl).1 rfl),
   (claim_C1.1 C1env [] [] { stop_reason := "tool_use", content := [C1block] } rfl).2.1 C1block⟩

/-- C3: In both variants a failing tool call is converted into a
tool-result value carrying the error text with the error flag set, that value
is appended into the conversation history, and tool failures never propagate
out of the tool-calling loop: the only exception sources are the LLM calls
themselves (and, in the Ollama variant, the reply-inspection `TypeError`,
which occurs before any tool execution). -/
theorem claim_C3 :
    (∀ (env : Ollama.Env) (nm args : Json) (e : String),
        env.rpc "tools/call" (.obj [("name", nm), ("arguments", args)]) = .error e →
        Ollama.call_tool env nm args = .obj [("error", .str e), ("is_error", .bool true)])
    ∧ (∀ (env : Ollama.Env) (sys : String) (messages m : List Ollama.Message)
        (ev : List Ollama.OEvent), Ollama.ollama_step env sys messages = (.next m, ev) →
        ∃ a nm args, m = messages ++
            [{ role := "assistant", content := a },
             { role := "user",
               content := "Tool result:\n" ++ env.dumps (Ollama.call_tool env nm args) }])
    ∧ (∀ (env : Ollama.Env) (sys : String) (messages : List Ollama.Message) (e : String),
        (Ollama.ollama_step env sys messages).1 = .raised e →
        env.chat ({ role := "system", content := sys } :: messages) = .error e)
    ∧ (∀ (env : Ollama.Env) (sys : String) (messages : List Ollama.Message),
        (Ollama.ollama_step env sys messages).1 = .crash →
        ∃ a, env.chat ({ role := "system", content := sys } :: messages) = .ok a
          ∧ Ollama.decode_reply env.jsonLoads a = .typeErr)
    ∧ (∀ (env : Stdio.Env) (b : Stdio.Block) (e : String),
        env.mcpCall b.name b.input = .error e →
        Stdio.exec_tool_block env b = .failure b.id ("Error: " ++ e)
        ∧ (Stdio.exec_tool_block env b).is_error = true)
    ∧ (∀ (env : Stdio.Env) (tools : List Stdio.AnthropicTool)
        (messages : List Stdio.AMessage) (e : String),
        (Stdio.claude_step env tools messages).1 = .raised e →
        env.create messages tools = .error e) := by
  refine ⟨?_, ?_, Ollama.ollama_step_raised_inv, Ollama.ollama_step_crash_inv, ?_,
    Stdio.claude_step_raised_inv⟩
  · intro env nm args e h
    unfold Ollama.call_tool
    rw [h]
  · intro env sys messages m ev h
    obtain ⟨a, nm, args, _, _, hm, _⟩ :=
      Ollama.ollama_step_next_inv env sys messages m ev h
    exact ⟨a, nm, args, hm⟩
  · intro env b e h
    unfold Stdio.exec_tool_block
    rw [h]
    exact ⟨rfl, rfl⟩

/-- Concrete oracles for the C3 witness: every tool call fails. -/
def C3envO : Ollama.Env :=
  { chat := fun _ => .ok "x", rpc := fun _ _ => .error "connection refused",
    jsonLoads := fun _ => none, dumps := fun _ => "" }

/-- Concrete stdio oracles for the C3 witness: the MCP call fails. -/
def C3envS : Stdio.Env :=
  { create := fun _ _ => .ok { stop_reason := "end_turn", content := [] }
    mcpCall := fun _ _ => .error "boom"
    listTools := .ok [] }

/-- One `tool_use` content block used by the C3 witness. -/
def C3block : Stdio.Block :=
  { type := "tool_use", id := "toolu_9", name := "run_query", input := .obj [], text := none }

/-- Witness for C3: a failing JSON-RPC tool call yields the error dict, and a
failing MCP call yields the error-flagged tool-result entry. -/
theorem claim_C3_witness :
    Ollama.call_tool C3envO (.str "t") (.obj []) =
      .obj [("error", .str "connection refused"), ("is_error", .bool true)]
    ∧ Stdio.exec_tool_block C3envS C3block = .failure C3block.id ("Error: " ++ "boom")
    ∧ (Stdio.exec_tool_block C3envS C3block).is_error = true := by
  refine ⟨claim_C3.1 C3envO (.str "t") (.obj []) "connection refused" rfl, ?_, ?_⟩
  · exact (claim_C3.2.2.2.2.1 C3envS C3block "boom" rfl).1
  · exact (claim_C3.2.2.2.2.1 C3envS C3block "boom" rfl).2

/-- Concrete oracles for the C4 counterexample: the LLM replies `123`, which
`json.loads` parses to the JSON number 123 (a parse success without a `tool`
key). -/
def C4env : Ollama.Env :=
  { chat := fun _ => .ok "123"
    rpc := fun _ _ => .ok .null
    jsonLoads := fun s => if s = "123" then some (.num 123) else none
    dumps := fun _ => "" }

/-- C4 counterexample: The reply `123` parses as JSON and has no `tool`
key, yet `process_query` does not return it verbatim as the final answer: the
membership test `"tool" in 123` raises an uncaught `TypeError` that aborts
the turn.  The part "parses as JSON but lacks a `tool` key implies final
answer" is therefore false as stated. -/
theorem claim_C4_counterexample :
    C4env.jsonLoads (pyStrip "123") = some (.num 123)
    ∧ (Ollama.process_query C4env [] "hi" []).1 =
        .typeError [{ role := "user", content := "hi" }]
    ∧ (Ollama.process_query C4env [] "hi" []).1 ≠
        .answer "123" [{ role := "user", content := "hi" }] := by
  have h2 : (Ollama.process_query C4env [] "hi" []).1 =
      .typeError [{ role := "user", content := "hi" }] := rfl
  exact ⟨rfl, h2, fun hcontra => Ollama.OOutcome.noConfusion (h2.symm.trans hcontra)⟩

/-- C4 amended: For every LLM reply in the HTTP/Ollama variant: a reply
whose stripped text fails JSON parsing is returned verbatim as the final
answer; a reply parsing to a JSON *object* without a `tool` key is likewise
returned verbatim; a tool round trip happens only when the parse yields an
object whose key set contains `tool`; and a reply parsing to a non-object
JSON value (here a number) instead raises an uncaught `TypeError`. -/
theorem claim_C4_amended (env : Ollama.Env) (sys : String)
    (messages : List Ollama.Message) (a : String)
    (hc : env.chat ({ role := "system", content := sys } :: messages) = .ok a) :
    (env.jsonLoads (pyStrip a) = none →
      Ollama.ollama_step env sys messages =
        (.final a, [.llmCall ({ role := "system", content := sys } :: messages)]))
    ∧ (∀ kvs, env.jsonLoads (pyStrip a) = some (.obj kvs) →
        kvs.any (fun kv => kv.1 == "tool") = false →
        Ollama.ollama_step env sys messages =
          (.final a, [.llmCall ({ role := "system", content := sys } :: messages)]))
    ∧ (∀ m, (Ollama.ollama_step env sys messages).1 = .next m →
        ∃ kvs, env.jsonLoads (pyStrip a) = some (.obj kvs)
          ∧ kvs.any (fun kv => kv.1 == "tool") = true)
    ∧ (∀ k : Int, env.jsonLoads (pyStrip a) = some (.num k) →
        (Ollama.ollama_step env sys messages).1 = .crash) := by
  refine ⟨?_, ?_, ?_, ?_⟩
  · intro h
    exact Ollama.ollama_step_final env sys messages a hc (Ollama.decode_reply_none _ _ h)
  · intro kvs h hn
    exact Ollama.ollama_step_final env sys messages a hc
      (Ollama.decode_reply_obj_no_tool _ _ _ h hn)
  · intro m h
    rcases Ollama.ollama_step_cases env sys messages with
      ⟨e, hc2, hs⟩ | ⟨a2, hc2, ⟨_, hs⟩ | ⟨_, hs⟩ | ⟨nm, args, hd, hs⟩⟩
    · rw [hs] at h; simp at h
    · rw [hs] at h; simp at h
    · rw [hs] at h; simp at h
    · have ha : a2 = a := Except.ok.inj (hc2.symm.trans hc)
      rw [ha] at hd
      exact Ollama.decode_reply_invoke_inv env.jsonLoads a nm args hd
  · intro k h
    rw [Ollama.ollama_step_crash env sys messages a hc (Ollama.decode_reply_num _ _ k h)]

/-- Concrete oracles for the C4 witness: the reply is not JSON. -/
def C4envW : Ollama.Env :=
  { chat := fun _ => .ok "hello", rpc := fun _ _ => .ok .null,
    jsonLoads := fun _ => none, dumps := fun _ => "" }

/-- Witness for the amended C4: a non-JSON reply is returned verbatim. -/
theorem claim_C4_witness :
    Ollama.ollama_step C4envW "" [] =
      (.final "hello", [.llmCall [{ role := "system", content := "" }]]) :=
  (claim_C4_amended C4envW "" [] "hello" rfl).1 rfl

/-- C10: In the stdio variant, a terminal response makes `process_query`
return the concatenation, in order, of the texts of exactly those content
blocks carrying a text attribute; with no text-bearing blocks the answer is
the empty string. -/
theorem claim_C10 (env : Stdio.Env) (n : Nat) (user_query : String)
    (messages : List Stdio.AMessage) (mcpTools : List Stdio.McpTool)
    (resp : Stdio.ClaudeResponse)
    (hl : env.listTools = .ok mcpTools)
    (hc : env.create (messages ++ [{ role := "user", content := .text user_query }])
            (mcpTools.map Stdio.toAnthropicTool) = .ok resp)
    (ht : resp.stop_reason ≠ "tool_use") :
    Stdio.process_query env (n + 1) user_query messages =
      (.answer (concatAll (resp.content.filterMap Stdio.Block.text))
         (messages ++ [{ role := "user", content := .text user_query }]),
       [.createCall (messages ++ [{ role := "user", content := .text user_query }])])
    ∧ (resp.content.filterMap Stdio.Block.text = [] →
        (Stdio.process_query env (n + 1) user_query messages).1 =
          .answer "" (messages ++ [{ role := "user", content := .text user_query }])) := by
  have hstep := Stdio.claude_step_terminal env _ _ resp hc ht
  have hmain : Stdio.process_query env (n + 1) user_query messages =
      (.answer (concatAll (resp.content.filterMap Stdio.Block.text))
         (messages ++ [{ role := "user", content := .text user_query }]),
       [.createCall (messages ++ [{ role := "user", content := .text user_query }])]) := by
    simp only [Stdio.process_query]
    rw [hl]
    simp only [Stdio.claude_loop]
    rw [hstep, Stdio.concat_text_blocks_eq]
  refine ⟨hmain, fun hemp => ?_⟩
  rw [hmain, hemp]
  rfl

/-- Concrete stdio oracles for the C10 witness: a terminal response with two
text blocks around a text-less block. -/
def C10env : Stdio.Env :=
  { create := fun _ _ => .ok { stop_reason := "end_turn", content :=
      [{ type := "text", id := "", name := "", input := .null, text := some "Hello " },
       { type := "thinking", id := "", name := "", input := .null, text := none },
       { type := "text", id := "", name := "", input := .null, text := some "world" }] }
    mcpCall := fun _ _ => .ok .null
    listTools := .ok [] }

/-- Witness for C10: the two text blocks are concatenated in order. -/
theorem claim_C10_witness :
    Stdio.process_query C10env 1 "hi" [] =
      (.answer (concatAll
          (([{ type := "text", id := "", name := "", input := .null, text := some "Hello " },
             { type := "thinking", id := "", name := "", input := .null, text := none },
             { type := "text", id := "", name := "", input := .null,
               text := some "world" }] : List Stdio.Block).filterMap Stdio.Block.text))
         ([] ++ [{ role := "user", content := .text "hi" }]),
       [.createCall ([] ++ [{ role := "user", content := .text "hi" }])]) :=
  (claim_C10 C10env 0 "hi" [] [] _ rfl rfl (by decide)).1

/-- C5: For every well-formed `ToolSpec` list, `format_tools_for_ollama`
produces one description entry per tool in the input order (the output is the
newline-join of `toolEntry` over the list), each entry begins with the
`- name: description` line, and an entry includes the nested `Parameters:`
sub-block exactly when the input schema of the tool has a non-empty properties map. -/
theorem claim_C5 (tools : List Ollama.ToolDict) :
    Ollama.format_tools_for_ollama tools =
      String.intercalate "\n" (tools.map Ollama.toolEntry)
    ∧ ∀ t ∈ tools,
        (∃ rest, Ollama.toolEntry t =
          ("- " ++ t.name ++ ": " ++ (t.description.getD "No description")) ++ rest)
        ∧ ((∃ rest, Ollama.toolEntry t =
              ("- " ++ t.name ++ ": " ++ (t.description.getD "No description"))
                ++ "\n  Parameters:\n    " ++ rest)
            ↔ Ollama.hasNonEmptyProps t = true) := by
  refine ⟨rfl, fun t _ => ⟨Ollama.toolEntry_base t, ?_, Ollama.toolEntry_with_params t⟩⟩
  rintro ⟨rest, hrest⟩
  by_contra h
  rw [Bool.not_eq_true] at h
  rw [Ollama.toolEntry_no_params t h] at hrest
  have := congrArg String.length hrest
  simp only [String.length_append] at this
  have hsep : (0:Nat) < "\n  Parameters:\n    ".length := by decide
  omega

/-- Witness for C5 at a concrete two-tool list: one tool with a non-empty
properties map, one with no schema. -/
theorem claim_C5_witness :
    Ollama.format_tools_for_ollama
        [⟨"list_tables", some "List tables",
          some ⟨some [⟨"schema", ⟨some "string", some "Schema name"⟩⟩]⟩⟩,
         ⟨"ping", none, none⟩] =
      String.intercalate "\n"
        ([⟨"list_tables", some "List tables",
           some ⟨some [⟨"schema", ⟨some "string", some "Schema name"⟩⟩]⟩⟩,
          (⟨"ping", none, none⟩ : Ollama.ToolDict)].map Ollama.toolEntry)
    ∧ (∃ rest, Ollama.toolEntry ⟨"ping", none, none⟩ =
        ("- " ++ "ping" ++ ": " ++ ((none : Option String).getD "No description")) ++ rest) := by
  have h := claim_C5 [⟨"list_tables", some "List tables",
      some ⟨some [⟨"schema", ⟨some "string", some "Schema name"⟩⟩]⟩⟩,
    ⟨"ping", none, none⟩]
  exact ⟨h.1, (h.2 ⟨"ping", none, none⟩ (by simp)).1⟩

/-- C7: A run of either variant with the required environment variable
missing (`PGEDGE_MCP_SERVER_URL` for the HTTP variant, `ANTHROPIC_API_KEY`
for the stdio variant) prints a descriptive error and terminates before any
network activity and before entering the interactive loop. -/
theorem claim_C7 :
    (∀ getenv : String → Option String, getenv "PGEDGE_MCP_SERVER_URL" = none →
      Ollama.MainAction.network ∉ Ollama.ollama_main getenv
      ∧ Ollama.MainAction.enterChatLoop ∉ Ollama.ollama_main getenv
      ∧ (Ollama.ollama_main getenv).head? =
          some (.printOut "Error: PGEDGE_MCP_SERVER_URL environment variable is required"))
    ∧ (∀ (getenv : String → Option String) (path_exists : String → Bool),
        getenv "ANTHROPIC_API_KEY" = none →
        Ollama.MainAction.network ∉ Stdio.stdio_main getenv path_exists
        ∧ Ollama.MainAction.enterChatLoop ∉ Stdio.stdio_main getenv path_exists
        ∧ ∃ s r, (Stdio.stdio_main getenv path_exists).head? = some (.printOut s)
            ∧ s = "Error: " ++ r) := by
  constructor
  · intro getenv h
    unfold Ollama.ollama_main
    rw [h]
    simp only [pyFalsyStrOpt, if_true]
    refine ⟨?_, ?_, rfl⟩ <;> simp
  · intro getenv path_exists h
    unfold Stdio.stdio_main
    by_cases hp : path_exists ((getenv "PGEDGE_MCP_SERVER_PATH").getD "../../bin/pgedge-postgres-mcp")
    · simp only [hp, Bool.not_true, if_false, h, pyFalsyStrOpt, if_true]
      refine ⟨by simp, by simp, "Error: ANTHROPIC_API_KEY environment variable is required",
        "ANTHROPIC_API_KEY environment variable is required", rfl, rfl⟩
    · rw [Bool.not_eq_true] at hp
      simp only [hp, Bool.not_false, if_true]
      refine ⟨by simp, by simp,
        "Error: Server not found at " ++ (getenv "PGEDGE_MCP_SERVER_PATH").getD "../../bin/pgedge-postgres-mcp",
        "Server not found at " ++ (getenv "PGEDGE_MCP_SERVER_PATH").getD "../../bin/pgedge-postgres-mcp",
        rfl, ?_⟩
      rw [← String.append_assoc]
      rfl

/-- Witness for C7 with every environment variable absent. -/
theorem claim_C7_witness :
    Ollama.MainAction.enterChatLoop ∉ Ollama.ollama_main (fun _ => none)
    ∧ Ollama.MainAction.network ∉ Stdio.stdio_main (fun _ => none) (fun _ => true) := by
  exact ⟨(claim_C7.1 (fun _ => none) rfl).2.1, (claim_C7.2 (fun _ => none) (fun _ => true) rfl).1⟩

/-- C8: The integer ids carried by successive JSON-RPC requests of one
HTTP-variant session are strictly monotonically increasing: the id of a later
request is greater than the id of an earlier one. -/
theorem claim_C8 (i j : Nat) (h : i < j) :
    Ollama.nth_request_id i < Ollama.nth_request_id j := by
  rw [Ollama.nth_request_id_eq, Ollama.nth_request_id_eq]
  omega

/-- Witness for C8: the first request id is smaller than the third. -/
theorem claim_C8_witness :
    0 < 2 ∧ Ollama.nth_request_id 0 < Ollama.nth_request_id 2 :=
  ⟨by decide, claim_C8 0 2 (by decide)⟩

theorem Ollama.ollama_step_one_llm (env : Ollama.Env) (sys : String)
    (messages : List Ollama.Message) :
    Ollama.countLlmCalls (Ollama.ollama_step env sys messages).2 = 1 := by
  rcases Ollama.ollama_step_cases env sys messages with
    ⟨e, hc, hs⟩ | ⟨a, hc, ⟨_, hs⟩ | ⟨_, hs⟩ | ⟨nm, args, hd, hs⟩⟩ <;>
    rw [hs] <;>
    simp [Ollama.countLlmCalls, List.countP_cons, List.countP_nil]

theorem Ollama.countLlmCalls_append (l1 l2 : List Ollama.OEvent) :
    Ollama.countLlmCalls (l1 ++ l2) = Ollama.countLlmCalls l1 + Ollama.countLlmCalls l2 := by
  simp [Ollama.countLlmCalls, List.countP_append]

theorem Ollama.countLlmCalls_loop_le (env : Ollama.Env) (sys : String) :
    ∀ (n : Nat) (init : List Ollama.Message),
      Ollama.countLlmCalls (Ollama.ollama_loop env sys n init).2 ≤ n := by
  intro n
  induction n with
  | zero =>
    intro init
    simp [Ollama.ollama_loop, Ollama.countLlmCalls]
  | succ n ih =>
    intro init
    have hone : Ollama.countLlmCalls
        [Ollama.OEvent.llmCall ({ role := "system", content := sys } :: init)] = 1 := by
      simp [Ollama.countLlmCalls, List.countP_cons, List.countP_nil]
    rcases Ollama.ollama_step_cases env sys init with
      ⟨e, hc, hs⟩ | ⟨a, hc, ⟨_, hs⟩ | ⟨_, hs⟩ | ⟨nm, args, hd, hs⟩⟩
    · simp only [Ollama.ollama_loop]
      rw [hs]
      dsimp only
      omega
    · simp only [Ollama.ollama_loop]
      rw [hs]
      dsimp only
      omega
    · simp only [Ollama.ollama_loop]
      rw [hs]
      dsimp only
      omega
    · simp only [Ollama.ollama_loop]
      rw [hs]
      dsimp only
      have h2 := ih (init ++
        [{ role := "assistant", content := a },
         { role := "user",
           content := "Tool result:\n" ++ env.dumps (Ollama.call_tool env nm args) }])
      rw [Ollama.countLlmCalls_append]
      have h3 : Ollama.countLlmCalls
          [Ollama.OEvent.llmCall ({ role := "system", content := sys } :: init),
           Ollama.OEvent.toolCall nm args] = 1 := by
        simp [Ollama.countLlmCalls, List.countP_cons, List.countP_nil]
      omega

theorem Ollama.ollama_histories_zero (env : Ollama.Env) (sys : String)
    (init : List Ollama.Message) :
    Ollama.ollama_histories env sys init 0 = init := rfl

theorem Ollama.ollama_histories_succ (env : Ollama.Env) (sys : String)
    (init : List Ollama.Message) (i : Nat) :
    Ollama.ollama_histories env sys init (i + 1) =
      match Ollama.ollama_step env sys (Ollama.ollama_histories env sys init i) with
      | (.next m2, _) => m2
      | _ => Ollama.ollama_histories env sys init i := rfl

theorem Ollama.ollama_histories_shift (env : Ollama.Env) (sys : String)
    (init m : List Ollama.Message) (ev : List Ollama.OEvent)
    (hstep : Ollama.ollama_step env sys init = (.next m, ev)) :
    ∀ i, Ollama.ollama_histories env sys init (i + 1) =
      Ollama.ollama_histories env sys m i := by
  intro i
  induction i with
  | zero =>
    rw [Ollama.ollama_histories_succ, Ollama.ollama_histories_zero, hstep]
    rfl
  | succ i ih =>
    rw [Ollama.ollama_histories_succ env sys init (i + 1),
      Ollama.ollama_histories_succ env sys m i, ih]

/-- Under the hypothesis that every round trip up to `n` is a tool-invoking
one, the loop exhausts its iterations, returns the apology with the fully
grown history, performs exactly `n` LLM calls, and every iteration appended
exactly its assistant message and tool-result message. -/
theorem Ollama.ollama_loop_all_next (env : Ollama.Env) (sys : String) :
    ∀ (n : Nat) (init : List Ollama.Message),
      (∀ i, i < n →
        ((Ollama.ollama_step env sys (Ollama.ollama_histories env sys init i)).1).isNext = true) →
      ∃ evs, Ollama.ollama_loop env sys n init =
          (.answer Ollama.apology (Ollama.ollama_histories env sys init n), evs)
        ∧ Ollama.countLlmCalls evs = n
        ∧ (∀ i, i < n → ∃ a r, Ollama.ollama_histories env sys init (i + 1) =
            Ollama.ollama_histories env sys init i ++
              [{ role := "assistant", content := a }, { role := "user", content := r }]) := by
  intro n
  induction n with
  | zero =>
    intro init _
    exact ⟨[], rfl, rfl, fun i hi => absurd hi (by omega)⟩
  | succ n ih =>
    intro init h
    have h0 := h 0 (by omega)
    simp only [Ollama.ollama_histories] at h0
    rcases Ollama.ollama_step_cases env sys init with
      ⟨e, hc, hs⟩ | ⟨a, hc, ⟨_, hs⟩ | ⟨_, hs⟩ | ⟨nm, args, hd, hs⟩⟩
    · rw [hs] at h0; simp [Ollama.OStep.isNext] at h0
    · rw [hs] at h0; simp [Ollama.OStep.isNext] at h0
    · rw [hs] at h0; simp [Ollama.OStep.isNext] at h0
    · have hshift := Ollama.ollama_histories_shift env sys init _ _ hs
      have hnext : ∀ i, i < n →
          ((Ollama.ollama_step env sys (Ollama.ollama_histories env sys
            (init ++ [{ role := "assistant", content := a },
              { role := "user",
                content := "Tool result:\n" ++ env.dumps (Ollama.call_tool env nm args) }]) i)).1).isNext
            = true := by
        intro i hi
        have := h (i + 1) (by omega)
        rw [hshift i] at this
        exact this
      obtain ⟨evs, hloop, hcount, hgrow⟩ := ih _ hnext
      refine ⟨[.llmCall ({ role := "system", content := sys } :: init),
        .toolCall nm args] ++ evs, ?_, ?_, ?_⟩
      · simp only [Ollama.ollama_loop]
        rw [hs]
        dsimp only
        rw [hloop, ← hshift n]
      · rw [Ollama.countLlmCalls_append, hcount]
        have h3 : Ollama.countLlmCalls
            [Ollama.OEvent.llmCall ({ role := "system", content := sys } :: init),
             Ollama.OEvent.toolCall nm args] = 1 := by
          simp [Ollama.countLlmCalls, List.countP_cons, List.countP_nil]
        omega
      · intro i hi
        cases i with
        | zero =>
          refine ⟨a, "Tool result:\n" ++ env.dumps (Ollama.call_tool env nm args), ?_⟩
          rw [hshift 0]
          simp only [Ollama.ollama_histories]
        | succ j =>
          have hj : j < n := by omega
          obtain ⟨a2, r2, hg⟩ := hgrow j hj
          refine ⟨a2, r2, ?_⟩
          rw [hshift (j + 1), hshift j]
          exact hg

/-- C2: In the HTTP/Ollama variant, a user turn whose first 10 round
trips each produce a tool invocation makes `process_query` return the fixed
apology string after exactly 10 LLM calls (no 11th call is performed), and no
user turn ever performs more than 10 LLM calls. -/
theorem claim_C2 (env : Ollama.Env) (tools : List Ollama.ToolDict) (user_query : String)
    (messages : List Ollama.Message)
    (h : ∀ i, i < 10 →
      ((Ollama.ollama_step env
          (Ollama.ollama_system_message (Ollama.format_tools_for_ollama tools))
          (Ollama.ollama_histories env
            (Ollama.ollama_system_message (Ollama.format_tools_for_ollama tools))
            (messages ++ [{ role := "user", content := user_query }]) i)).1).isNext = true) :
    (Ollama.process_query env tools user_query messages).1 =
      .answer Ollama.apology
        (Ollama.ollama_histories env
          (Ollama.ollama_system_message (Ollama.format_tools_for_ollama tools))
          (messages ++ [{ role := "user", content := user_query }]) 10)
    ∧ Ollama.countLlmCalls (Ollama.process_query env tools user_query messages).2 = 10
    ∧ (∀ (env2 : Ollama.Env) (tools2 : List Ollama.ToolDict) (q2 : String)
        (m2 : List Ollama.Message),
        Ollama.countLlmCalls (Ollama.process_query env2 tools2 q2 m2).2 ≤ 10) := by
  obtain ⟨evs, hloop, hcount, _⟩ := Ollama.ollama_loop_all_next env
    (Ollama.ollama_system_message (Ollama.format_tools_for_ollama tools)) 10
    (messages ++ [{ role := "user", content := user_query }]) h
  refine ⟨?_, ?_, ?_⟩
  · show (Ollama.ollama_loop env
      (Ollama.ollama_system_message (Ollama.format_tools_for_ollama tools)) 10
      (messages ++ [{ role := "user", content := user_query }])).1 = _
    rw [hloop]
  · show Ollama.countLlmCalls (Ollama.ollama_loop env
      (Ollama.ollama_system_message (Ollama.format_tools_for_ollama tools)) 10
      (messages ++ [{ role := "user", content := user_query }])).2 = 10
    rw [hloop]
    exact hcount
  · intro env2 tools2 q2 m2
    exact Ollama.countLlmCalls_loop_le env2
      (Ollama.ollama_system_message (Ollama.format_tools_for_ollama tools2)) 10
      (m2 ++ [{ role := "user", content := q2 }])

/-- Concrete oracles for the C2 witness: every reply is the same tool
invocation. -/
def C2env : Ollama.Env :=
  { chat := fun _ => .ok "x"
    rpc := fun _ _ => .ok .null
    jsonLoads := fun _ => some (.obj [("tool", .str "t")])
    dumps := fun _ => "r" }

/-- Witness for C2: with an always-invoking LLM the apology is returned after
exactly 10 LLM calls. -/
theorem claim_C2_witness :
    (Ollama.process_query C2env [] "hi" []).1 =
      .answer Ollama.apology
        (Ollama.ollama_histories C2env
          (Ollama.ollama_system_message (Ollama.format_tools_for_ollama []))
          ([] ++ [{ role := "user", content := "hi" }]) 10)
    ∧ Ollama.countLlmCalls (Ollama.process_query C2env [] "hi" []).2 = 10 := by
  have h := claim_C2 C2env [] "hi" [] (by decide)
  exact ⟨h.1, h.2.1⟩

/-- C9: When the HTTP-variant iteration cap is reached, nothing is rolled
back: every iteration appended its assistant tool-call message and tool-result
message, `process_query` returns the apology together with the fully grown
history, and the session loop appends the apology itself as a further
assistant message on top of that history, exactly as it would a genuine final
answer. -/
theorem claim_C9 (env : Ollama.Env) (tools : List Ollama.ToolDict) (s : String)
    (rest : List InputEvent) (messages : List Ollama.Message)
    (hq : (["quit", "exit", "q"].contains (pyLower (pyStrip s))) = false)
    (hne : pyStrip s ≠ "")
    (h : ∀ i, i < 10 →
      ((Ollama.ollama_step env
          (Ollama.ollama_system_message (Ollama.format_tools_for_ollama tools))
          (Ollama.ollama_histories env
            (Ollama.ollama_system_message (Ollama.format_tools_for_ollama tools))
            (messages ++ [{ role := "user", content := pyStrip s }]) i)).1).isNext = true) :
    (∀ i, i < 10 → ∃ a r,
      Ollama.ollama_histories env
          (Ollama.ollama_system_message (Ollama.format_tools_for_ollama tools))
          (messages ++ [{ role := "user", content := pyStrip s }]) (i + 1) =
        Ollama.ollama_histories env
          (Ollama.ollama_system_message (Ollama.format_tools_for_ollama tools))
          (messages ++ [{ role := "user", content := pyStrip s }]) i ++
          [{ role := "assistant", content := a }, { role := "user", content := r }])
    ∧ (Ollama.process_query env tools (pyStrip s) messages).1 =
        .answer Ollama.apology
          (Ollama.ollama_histories env
            (Ollama.ollama_system_message (Ollama.format_tools_for_ollama tools))
            (messages ++ [{ role := "user", content := pyStrip s }]) 10)
    ∧ ∃ ev, Ollama.chat_loop env tools (.line s :: rest) messages =
        ev ++ .answerPrint Ollama.apology ::
          Ollama.chat_loop env tools rest
            (Ollama.ollama_histories env
              (Ollama.ollama_system_message (Ollama.format_tools_for_ollama tools))
              (messages ++ [{ role := "user", content := pyStrip s }]) 10 ++
             [{ role := "assistant", content := Ollama.apology }]) := by
  obtain ⟨evs, hloop, hcount, hgrow⟩ := Ollama.ollama_loop_all_next env
    (Ollama.ollama_system_message (Ollama.format_tools_for_ollama tools)) 10
    (messages ++ [{ role := "user", content := pyStrip s }]) h
  have hpq : Ollama.process_query env tools (pyStrip s) messages =
      (.answer Ollama.apology
        (Ollama.ollama_histories env
          (Ollama.ollama_system_message (Ollama.format_tools_for_ollama tools))
          (messages ++ [{ role := "user", content := pyStrip s }]) 10), evs) := hloop
  refine ⟨hgrow, ?_, ?_⟩
  · rw [hpq]
  · refine ⟨evs, ?_⟩
    simp only [Ollama.chat_loop, hq, Bool.false_eq_true, if_false]
    rw [if_neg hne, hpq]

/-- Concrete oracles for the C9 witness: every reply is the same tool
invocation. -/
def C9env : Ollama.Env :=
  { chat := fun _ => .ok "x"
    rpc := fun _ _ => .ok .null
    jsonLoads := fun _ => some (.obj [("tool", .str "t")])
    dumps := fun _ => "r" }

/-- Witness for C9 at a concrete always-invoking session turn. -/
theorem claim_C9_witness :
    (Ollama.process_query C9env [] (pyStrip "hi") []).1 =
      .answer Ollama.apology
        (Ollama.ollama_histories C9env
          (Ollama.ollama_system_message (Ollama.format_tools_for_ollama []))
          ([] ++ [{ role := "user", content := pyStrip "hi" }]) 10) := by
  have h := claim_C9 C9env [] "hi" [] [] (by decide) (by decide) (by decide)
  exact h.2.1

/-- C6: In both variants: a line that strips to `quit`, `exit` or `q` in
any letter case ends the session loop with the goodbye message and nothing
else (no further LLM or tool call, the remaining input unconsumed); a line
that strips to the empty string performs no calls and the loop just
re-prompts; and an exception propagating out of a turn (an uncaught
`TypeError` or a raised LLM error) is caught, an error message is printed,
and the loop continues with the history as mutated so far. -/
theorem claim_C6 :
    (∀ (env : Ollama.Env) (tools : List Ollama.ToolDict) (s : String)
        (rest : List InputEvent) (messages : List Ollama.Message),
        (["quit", "exit", "q"].contains (pyLower (pyStrip s))) = true →
        Ollama.chat_loop env tools (.line s :: rest) messages = [.goodbye])
    ∧ (∀ (env : Stdio.Env) (fuel : Nat) (s : String) (rest : List InputEvent)
        (messages : List Stdio.AMessage),
        (["quit", "exit", "q"].contains (pyLower (pyStrip s))) = true →
        Stdio.chat_loop env fuel (.line s :: rest) messages = [.goodbye])
    ∧ (∀ (env : Ollama.Env) (tools : List Ollama.ToolDict) (s : String)
        (rest : List InputEvent) (messages : List Ollama.Message), pyStrip s = "" →
        Ollama.chat_loop env tools (.line s :: rest) messages =
          Ollama.chat_loop env tools rest messages)
    ∧ (∀ (env : Stdio.Env) (fuel : Nat) (s : String) (rest : List InputEvent)
        (messages : List Stdio.AMessage), pyStrip s = "" →
        Stdio.chat_loop env fuel (.line s :: rest) messages =
          Stdio.chat_loop env fuel rest messages)
    ∧ (∀ (env : Ollama.Env) (tools : List Ollama.ToolDict) (s : String)
        (rest : List InputEvent) (messages m : List Ollama.Message)
        (ev : List Ollama.OEvent),
        (["quit", "exit", "q"].contains (pyLower (pyStrip s))) = false →
        pyStrip s ≠ "" →
        Ollama.process_query env tools (pyStrip s) messages = (.typeError m, ev) →
        Ollama.chat_loop env tools (.line s :: rest) messages =
          ev ++ .errorPrint :: Ollama.chat_loop env tools rest m)
    ∧ (∀ (env : Stdio.Env) (fuel : Nat) (s : String) (rest : List InputEvent)
        (messages m : List Stdio.AMessage) (e : String) (ev : List Stdio.CEvent),
        (["quit", "exit", "q"].contains (pyLower (pyStrip s))) = false →
        pyStrip s ≠ "" →
        Stdio.process_query env fuel (pyStrip s) messages = (.raised e m, ev) →
        Stdio.chat_loop env fuel (.line s :: rest) messages =
          ev ++ .errorPrint :: Stdio.chat_loop env fuel rest m) := by
  refine ⟨?_, ?_, ?_, ?_, ?_, ?_⟩
  · intro env tools s rest messages hq
    simp only [Ollama.chat_loop]
    rw [hq]
    simp
  · intro env fuel s rest messages hq
    simp only [Stdio.chat_loop]
    rw [hq]
    simp
  · intro env tools s rest messages hs
    have hq : (["quit", "exit", "q"].contains (pyLower (pyStrip s))) = false := by
      rw [hs]; decide
    simp only [Ollama.chat_loop, hq, Bool.false_eq_true, if_false]
    rw [if_pos hs]
  · intro env fuel s rest messages hs
    have hq : (["quit", "exit", "q"].contains (pyLower (pyStrip s))) = false := by
      rw [hs]; decide
    simp only [Stdio.chat_loop, hq, Bool.false_eq_true, if_false]
    rw [if_pos hs]
  · intro env tools s rest messages m ev hq hne hp
    simp only [Ollama.chat_loop, hq, Bool.false_eq_true, if_false]
    rw [if_neg hne, hp]
  · intro env fuel s rest messages m e ev hq hne hp
    simp only [Stdio.chat_loop, hq, Bool.false_eq_true, if_false]
    rw [if_neg hne, hp]

/-- Concrete HTTP-variant oracles for the C6 witness. -/
def C6envO : Ollama.Env :=
  { chat := fun _ => .error "down", rpc := fun _ _ => .ok .null,
    jsonLoads := fun _ => none, dumps := fun _ => "" }

/-- Concrete stdio oracles for the C6 witness. -/
def C6envS : Stdio.Env :=
  { create := fun _ _ => .error "down", mcpCall := fun _ _ => .ok .null,
    listTools := .ok [] }

/-- Witness for C6: an upper-case padded `QUIT` ends the HTTP-variant loop
with the goodbye message, `q` ends the stdio loop, and a whitespace-only line
is skipped. -/
theorem claim_C6_witness :
    Ollama.chat_loop C6envO [] [.line " QUIT "] [] = [.goodbye]
    ∧ Stdio.chat_loop C6envS 1 [.line "q"] [] = [.goodbye]
    ∧ Ollama.chat_loop C6envO [] [.line "  "] [] = Ollama.chat_loop C6envO [] [] [] :=
  ⟨claim_C6.1 C6envO [] " QUIT " [] [] (by decide),
   claim_C6.2.1 C6envS 1 "q" [] [] (by decide),
   claim_C6.2.2.1 C6envO [] "  " [] [] (by decide)⟩
